import Mathlib

/-!
Shallow embedding of `src/listen-email.py`: a wake-word triggered audio
recorder.  The main loop (lines 114-168) reads one PCM frame per iteration,
classifies it with the trigger detector, and drives a two-state machine
(`recording : Bool`) that buffers frames for a fixed duration after a
trigger, then writes a WAV artifact, emails it, and deletes it on success.

Modelling choices:
* a loop iteration's inputs (the frame, the detector result, and the two
  wall-clock reads `time.time()` at lines 123 and 128) are gathered in
  `FrameInput`; timestamps and the recording duration are modelled as
  integers (an arbitrary tick granularity — the loop only subtracts and
  compares times);
* the mutable loop variables `recording`, `audio_frames`,
  `recording_start_time` (lines 107-109) form `LoopState`;
* the session-completion block (lines 136-166) is modelled separately as
  `flushSession` over an association-list file system, with the outcome of
  the write and of the SMTP exchange supplied as parameters (the
  environment's response);
* `stepFrame` reports the buffer handed to the persistence stage as an
  `Option`, so that runs can be compared against emitted sessions.
-/

namespace Listen

/-- Inputs consumed by one iteration of the main loop: the PCM frame
(`recorder.read()`), the detector result (`porcupine.process(pcm)`,
`-1` means no match), and the values the two `time.time()` calls would
return in this iteration (line 123 resp. line 128). -/
structure FrameInput where
  pcm : List Int
  keywordIndex : Int
  tTrigger : Int
  tCheck : Int
  deriving DecidableEq

/-- The mutable state of the main loop: `recording`, `audio_frames`,
`recording_start_time` (lines 107-109 of the source). -/
structure LoopState where
  recording : Bool
  audio_frames : List (List Int)
  recording_start_time : Option Int
  deriving DecidableEq

/-- Initial state of the loop (lines 107-109): not recording, empty
buffer, no start time. -/
def initState : LoopState :=
  { recording := false, audio_frames := [], recording_start_time := none }

/-- Lines 118-123: if the detector reported keyword index `0` and we are
not recording, start a recording window: reset the buffer and record the
start time. Any other detector result, or a match while recording, leaves
the state untouched at this stage. -/
def triggerStep (s : LoopState) (inp : FrameInput) : LoopState :=
  if inp.keywordIndex = 0 ∧ s.recording = false then
    { recording := true, audio_frames := [], recording_start_time := some inp.tTrigger }
  else s

/-- One iteration of the main loop body (lines 114-135), up to and
including the decision to hand the buffer to the persistence stage.
Returns the next state and, when the recording window just completed
with a non-empty buffer, `some buffer` (the sequence handed to lines
136-166); the unreachable empty-buffer branch (line 164) emits nothing. -/
def stepFrame (dur : Int) (s : LoopState) (inp : FrameInput) :
    LoopState × Option (List (List Int)) :=
  let s1 := triggerStep s inp
  if s1.recording then
    let frames := s1.audio_frames ++ [inp.pcm]
    let elapsed := inp.tCheck - (s1.recording_start_time.getD 0)
    if dur ≤ elapsed then
      if frames = [] then
        ({ recording := false, audio_frames := [], recording_start_time := none }, none)
      else
        ({ recording := false, audio_frames := [], recording_start_time := none }, some frames)
    else
      ({ s1 with audio_frames := frames }, none)
  else (s1, none)

/-- Run the main loop over a finite list of iteration inputs, collecting
the buffers emitted to the persistence stage, in order. -/
def runLoop (dur : Int) (s : LoopState) :
    List FrameInput → LoopState × List (List (List Int))
  | [] => (s, [])
  | inp :: rest =>
    let p := stepFrame dur s inp
    let q := runLoop dur p.1 rest
    (q.1, p.2.toList ++ q.2)

/-! ## Storage model

Durable storage is modelled as an association list from file paths to
byte contents (bytes as `Nat`).  `fsWrite` models `open(path, 'wb')`
semantics: create the file, truncating any existing file of the same
name.  `fsErase` models `os.remove`. -/

/-- The storage directory: a list of (path, contents) pairs. -/
abbrev Storage : Type := List (String × List Nat)

/-- Look a path up in storage. -/
def fsLookup : Storage → String → Option (List Nat)
  | [], _ => none
  | e :: rest, p => if e.1 = p then some e.2 else fsLookup rest p

/-- Write a file (`wave.open(temp_filename, 'wb')`, line 142): creates
the file, truncating/replacing an existing file with the same name. -/
def fsWrite : Storage → String → List Nat → Storage
  | [], p, d => [(p, d)]
  | e :: rest, p, d => if e.1 = p then (p, d) :: rest else e :: fsWrite rest p d

/-- Delete a file (`os.remove(temp_filename)`, line 155). -/
def fsErase : Storage → String → Storage
  | [], _ => []
  | e :: rest, p => if e.1 = p then fsErase rest p else e :: fsErase rest p

/-- Line 137-138: the artifact file name is derived from the completion
timestamp at second granularity (`strftime("%Y%m%d_%H%M%S")`); modelled
with the time as whole seconds.  Distinct seconds give distinct names,
but two completions in the same second give the same name. -/
def wavFilename (t : Nat) : String :=
  "recording_" ++ toString t ++ ".wav"

/-! ## WAV artifact model

Line 146 packs each signed 16-bit sample with `struct.pack('h', ...)`
(two bytes, little-endian, two's complement) and joins the per-frame
byte strings; lines 143-145 fix 1 channel, sample width 2 bytes, and the
session sample rate in the container header. -/

/-- Pack one signed 16-bit sample into two little-endian bytes
(`struct.pack('h', s)` for an in-range sample). -/
def encodeSample (s : Int) : List Nat :=
  [(s % 65536).toNat % 256, (s % 65536).toNat / 256]

/-- Pack one frame: the concatenation of its packed samples
(`struct.pack('h' * len(frame), *frame)`). -/
def encodeFrame (f : List Int) : List Nat :=
  (f.map encodeSample).flatten

/-- Line 146: `b''.join(... for frame in audio_frames)`. -/
def encodeFrames (frames : List (List Int)) : List Nat :=
  (frames.map encodeFrame).flatten

/-- The audio container: header fields (channels, sample width in bytes,
frame rate) and the raw sample bytes, as written by lines 142-146. -/
structure WavFile where
  nchannels : Nat
  sampwidth : Nat
  framerate : Nat
  data : List Nat
  deriving DecidableEq

/-- Lines 142-146: serialize an accumulated frame buffer into a
single-channel, 16-bit container at the session sample rate. -/
def writeWav (rate : Nat) (frames : List (List Int)) : WavFile :=
  { nchannels := 1, sampwidth := 2, framerate := rate, data := encodeFrames frames }

/-- Container decoder for the sample data: read back consecutive
little-endian byte pairs as signed 16-bit samples. -/
def decodeSamples : List Nat → List Int
  | lo :: hi :: rest =>
    (if lo + 256 * hi < 32768 then (lo + 256 * hi : Int)
     else (lo + 256 * hi : Int) - 65536) :: decodeSamples rest
  | _ => []

/-! ## Delivery model

`send_audio_email` (lines 33-79) first opens the attachment; if the file
is unreadable it returns `False` before any network object is created.
Only then does it connect to the relay, start TLS, log in, and send.
The environment's responses (connection/TLS outcome, credential check,
transmission outcome) are supplied as parameters.  The Python function
returns a bool; the spec's four-way outcome refines its return paths:
`Success` = the `return True` at line 69, `AttachmentFailure` = the
returns at lines 56/59, `AuthFailure` = line 73, `TransportFailure` =
lines 76/79. -/

/-- Outcome of one delivery attempt. -/
inductive DeliveryOutcome where
  | Success
  | AuthFailure
  | TransportFailure
  | AttachmentFailure
  deriving DecidableEq

/-- The boolean actually returned by `send_audio_email`: `True` only on
the success path (line 69). -/
def emailSent (o : DeliveryOutcome) : Bool :=
  o = DeliveryOutcome.Success

/-- Lines 33-79: attempt delivery of the artifact at `path`.  Returns
the outcome together with a flag recording whether any network
connection was attempted (the `smtplib.SMTP(...)` call at line 62).
`connectOk` models the SMTP connection + STARTTLS succeeding, `authOk`
the relay accepting the credentials (line 64), `sendOk` the message
transmission completing (lines 66-67). -/
def send_audio_email (fs : Storage) (path : String)
    (connectOk authOk sendOk : Bool) : DeliveryOutcome × Bool :=
  match fsLookup fs path with
  | none => (DeliveryOutcome.AttachmentFailure, false)
  | some _ =>
    if connectOk = false then (DeliveryOutcome.TransportFailure, true)
    else if authOk = false then (DeliveryOutcome.AuthFailure, true)
    else if sendOk = false then (DeliveryOutcome.TransportFailure, true)
    else (DeliveryOutcome.Success, true)

/-- Lines 153-158: retention decision after a delivery attempt — delete
the artifact only when the email was sent successfully, keep it for any
failure outcome. -/
def retentionDispose (fs : Storage) (path : String) (o : DeliveryOutcome) : Storage :=
  if emailSent o then fsErase fs path else fs

/-- Lines 136-166: the session-completion block run when the recording
window closes.  `writeOk` says whether the artifact write (lines
142-146) succeeds; on failure the exception is caught at line 160 and
the `finally` (line 163) clears the buffer without any delivery attempt.
Returns the new storage, `some outcome` when a delivery attempt was
made, and the final frame buffer.  Totality of this function models the
catch-and-continue policy: no per-session failure escapes the block. -/
def flushSession (fs : Storage) (frames : List (List Int)) (path : String)
    (writeOk : Bool) (outcome : DeliveryOutcome) :
    Storage × Option DeliveryOutcome × List (List Int) :=
  if frames = [] then (fs, none, frames)
  else if writeOk = false then (fs, none, [])
  else
    let fs1 := fsWrite fs path (encodeFrames frames)
    let fs2 := if emailSent outcome then fsErase fs1 path else fs1
    (fs2, some outcome, [])

/-! ## Step lemmas for the capture state machine -/

theorem triggerStep_of_recording (s : LoopState) (inp : FrameInput)
    (h : s.recording = true) : triggerStep s inp = s := by
  simp [triggerStep, h]

theorem step_idle_skip (dur : Int) (s : LoopState) (inp : FrameInput)
    (hrec : s.recording = false) (hk : inp.keywordIndex ≠ 0) :
    stepFrame dur s inp = (s, none) := by
  simp [stepFrame, triggerStep, hk, hrec]

theorem run_idle_skip (dur : Int) (s : LoopState) (l : List FrameInput)
    (hrec : s.recording = false) (h : ∀ i ∈ l, i.keywordIndex ≠ 0) :
    runLoop dur s l = (s, []) := by
  induction l with
  | nil => simp [runLoop]
  | cons a t ih =>
    have ha : a.keywordIndex ≠ 0 := h a (by simp)
    simp [runLoop, step_idle_skip dur s a hrec ha,
      ih (fun i hi => h i (by simp [hi]))]

theorem step_trigger_start (dur : Int) (s : LoopState) (inp : FrameInput)
    (hrec : s.recording = false) (hk : inp.keywordIndex = 0)
    (hlt : inp.tCheck - inp.tTrigger < dur) :
    stepFrame dur s inp =
      ({ recording := true, audio_frames := [inp.pcm],
         recording_start_time := some inp.tTrigger }, none) := by
  simp [stepFrame, triggerStep, hk, hrec, not_le.mpr hlt]

theorem step_recording_append (dur : Int) (s : LoopState) (inp : FrameInput) (t0 : Int)
    (hrec : s.recording = true) (hst : s.recording_start_time = some t0)
    (hlt : inp.tCheck - t0 < dur) :
    stepFrame dur s inp =
      ({ s with audio_frames := s.audio_frames ++ [inp.pcm] }, none) := by
  simp [stepFrame, triggerStep_of_recording s inp hrec, hrec, hst, not_le.mpr hlt]

theorem step_recording_flush (dur : Int) (s : LoopState) (inp : FrameInput) (t0 : Int)
    (hrec : s.recording = true) (hst : s.recording_start_time = some t0)
    (hge : dur ≤ inp.tCheck - t0) :
    stepFrame dur s inp = (initState, some (s.audio_frames ++ [inp.pcm])) := by
  simp [stepFrame, triggerStep_of_recording s inp hrec, hrec, hst, hge, initState]

theorem run_recording_accum (dur : Int) (t0 : Int) (l : List FrameInput) :
    ∀ s : LoopState, s.recording = true → s.recording_start_time = some t0 →
      (∀ i ∈ l, i.tCheck - t0 < dur) →
      runLoop dur s l =
        ({ s with audio_frames := s.audio_frames ++ l.map FrameInput.pcm }, []) := by
  induction l with
  | nil => intro s h1 h2 _; simp [runLoop]
  | cons a t ih =>
    intro s h1 h2 h3
    have ha : a.tCheck - t0 < dur := h3 a (by simp)
    have hstep := step_recording_append dur s a t0 h1 h2 ha
    have hrest := ih { s with audio_frames := s.audio_frames ++ [a.pcm] }
      h1 h2 (fun i hi => h3 i (by simp [hi]))
    simp [runLoop, hstep, hrest]

theorem runLoop_append (dur : Int) (s : LoopState) (l1 l2 : List FrameInput) :
    runLoop dur s (l1 ++ l2) =
      ((runLoop dur (runLoop dur s l1).1 l2).1,
        (runLoop dur s l1).2 ++ (runLoop dur (runLoop dur s l1).1 l2).2) := by
  induction l1 generalizing s with
  | nil => simp [runLoop]
  | cons a t ih => simp [runLoop, ih]

/-! ## Storage lemmas -/

theorem fsLookup_fsErase (fs : Storage) (p : String) :
    fsLookup (fsErase fs p) p = none := by
  induction fs with
  | nil => rfl
  | cons e t ih =>
    by_cases h : e.1 = p
    · simp [fsErase, h, ih]
    · simp [fsErase, fsLookup, h, ih]

theorem fsLookup_fsWrite_self (fs : Storage) (p : String) (d : List Nat) :
    fsLookup (fsWrite fs p d) p = some d := by
  induction fs with
  | nil => simp [fsWrite, fsLookup]
  | cons e t ih =>
    by_cases h : e.1 = p
    · simp [fsWrite, h, fsLookup]
    · simp [fsWrite, fsLookup, h, ih]

theorem fsLookup_fsWrite_other (fs : Storage) (p q : String) (d : List Nat)
    (h : q ≠ p) : fsLookup (fsWrite fs p d) q = fsLookup fs q := by
  have hpq : ¬ p = q := fun hq => h hq.symm
  induction fs with
  | nil => simp [fsWrite, fsLookup, hpq]
  | cons e t ih =>
    by_cases he : e.1 = p
    · simp [fsWrite, he, fsLookup, hpq]
    · simp [fsWrite, fsLookup, he, ih]

theorem fsWrite_length_of_fresh (fs : Storage) (p : String) (d : List Nat)
    (h : fsLookup fs p = none) :
    (fsWrite fs p d).length = fs.length + 1 := by
  induction fs with
  | nil => rfl
  | cons e t ih =>
    by_cases he : e.1 = p
    · simp [fsLookup, he] at h
    · simp only [fsLookup, he, if_false] at h
      simp [fsWrite, he, ih h]

/-! ## Codec lemmas -/

theorem decode_encodeSample (s : Int) (rest : List Nat)
    (h1 : -32768 ≤ s) (h2 : s < 32768) :
    decodeSamples (encodeSample s ++ rest) = s :: decodeSamples rest := by
  simp only [encodeSample, List.cons_append, List.nil_append, decodeSamples]
  congr 1
  split <;> omega

theorem decode_encodeFrame (f : List Int) (rest : List Nat)
    (h : ∀ s ∈ f, -32768 ≤ s ∧ s < 32768) :
    decodeSamples (encodeFrame f ++ rest) = f ++ decodeSamples rest := by
  induction f with
  | nil => simp [encodeFrame]
  | cons a t ih =>
    have ha := h a (by simp)
    have hT : encodeFrame (a :: t) = encodeSample a ++ encodeFrame t := by
      simp [encodeFrame]
    rw [hT, List.append_assoc, decode_encodeSample a _ ha.1 ha.2,
      ih (fun s hs => h s (by simp [hs]))]
    simp

theorem decode_encodeFrames (frames : List (List Int))
    (h : ∀ f ∈ frames, ∀ s ∈ f, -32768 ≤ s ∧ s < 32768) :
    decodeSamples (encodeFrames frames) = frames.flatten := by
  induction frames with
  | nil => rfl
  | cons a t ih =>
    have hT : encodeFrames (a :: t) = encodeFrame a ++ encodeFrames t := by
      simp [encodeFrames]
    rw [hT, decode_encodeFrame a _ (h a (by simp)),
      ih (fun f hf => h f (by simp [hf]))]
    simp

theorem run_recording_window (dur t0 : Int) (mid : List FrameInput) (last : FrameInput)
    (s : LoopState) (h1 : s.recording = true) (h2 : s.recording_start_time = some t0)
    (hmid : ∀ i ∈ mid, i.tCheck - t0 < dur)
    (hlast : dur ≤ last.tCheck - t0) :
    runLoop dur s (mid ++ [last]) =
      (initState, [s.audio_frames ++ mid.map FrameInput.pcm ++ [last.pcm]]) := by
  rw [runLoop_append, run_recording_accum dur t0 mid s h1 h2 hmid]
  have h4 := step_recording_flush dur
    { recording := s.recording, audio_frames := s.audio_frames ++ mid.map FrameInput.pcm,
      recording_start_time := s.recording_start_time } last t0 h1 h2 hlast
  simp [runLoop, h4]

/-! ## Claims about the capture state machine -/

/-- C2: for every sequence of frames in which the trigger detector never
reports a match (keyword index 0), the loop started in the initial idle
state stays in that state for the whole run and emits no session buffer
to the persistence stage. -/
theorem no_trigger_stays_idle (dur : Int) (l : List FrameInput)
    (h : ∀ i ∈ l, i.keywordIndex ≠ 0) :
    runLoop dur initState l = (initState, []) :=
  run_idle_skip dur initState l rfl h

theorem no_trigger_stays_idle_witness :
    runLoop 15 initState [⟨[1, 2], -1, 0, 0⟩, ⟨[3], -1, 0, 1⟩] = (initState, []) :=
  no_trigger_stays_idle 15 [⟨[1, 2], -1, 0, 0⟩, ⟨[3], -1, 0, 1⟩] (by decide)

/-- C10: while idle, a detector result different from keyword index `0`
(the no-match value `-1` or any positive trigger identifier) leaves the
state machine exactly as it was — still idle, buffer untouched (hence
still empty), nothing emitted.  Only the result `0` can start a window
(line 118 compares `keyword_index == 0`). -/
theorem idle_ignores_non_zero (dur : Int) (s : LoopState) (inp : FrameInput)
    (hrec : s.recording = false) (hk : inp.keywordIndex ≠ 0) :
    stepFrame dur s inp = (s, none) :=
  step_idle_skip dur s inp hrec hk

theorem idle_ignores_non_zero_witness :
    stepFrame 15 initState ⟨[5], 3, 0, 1⟩ = (initState, none) :=
  idle_ignores_non_zero 15 initState ⟨[5], 3, 0, 1⟩ rfl (by decide)

/-- C3: a trigger match on a frame processed while the machine is
already recording has no effect: the whole remaining run (state, buffer
contents and length, window start/end, all emissions) is identical to
the run where that same frame carried any other detector result. -/
theorem retrigger_ignored (dur : Int) (s : LoopState) (inp : FrameInput) (k : Int)
    (rest : List FrameInput) (hrec : s.recording = true) :
    runLoop dur s (inp :: rest) =
      runLoop dur s ({ inp with keywordIndex := k } :: rest) := by
  have hstep : stepFrame dur s inp = stepFrame dur s { inp with keywordIndex := k } := by
    simp [stepFrame, triggerStep, hrec]
  simp only [runLoop, hstep]

theorem retrigger_ignored_witness :
    runLoop 15 ⟨true, [[1]], some 0⟩ [⟨[2], 0, 3, 3⟩] =
      runLoop 15 ⟨true, [[1]], some 0⟩ [⟨[2], -1, 3, 3⟩] :=
  retrigger_ignored 15 ⟨true, [[1]], some 0⟩ ⟨[2], 0, 3, 3⟩ (-1) [] rfl

/-- C4: whenever the elapsed-duration threshold is reached while
recording (also when the window started on this very frame), the buffer
handed over is the accumulated frames plus the current frame — never
empty, because the frame is appended before the duration check — it is
emitted to the persistence stage, and the machine returns to the initial
idle state with a cleared buffer. -/
theorem flush_emits_nonempty (dur : Int) (s : LoopState) (inp : FrameInput) (t0 : Int)
    (hrec : (triggerStep s inp).recording = true)
    (hst : (triggerStep s inp).recording_start_time = some t0)
    (hge : dur ≤ inp.tCheck - t0) :
    (triggerStep s inp).audio_frames ++ [inp.pcm] ≠ [] ∧
    stepFrame dur s inp =
      (initState, some ((triggerStep s inp).audio_frames ++ [inp.pcm])) := by
  refine ⟨by simp, ?_⟩
  have key : stepFrame dur s inp = stepFrame dur (triggerStep s inp) inp := by
    simp only [stepFrame, triggerStep_of_recording (triggerStep s inp) inp hrec]
  rw [key, step_recording_flush dur _ inp t0 hrec hst hge]

theorem flush_emits_nonempty_witness :
    (triggerStep initState ⟨[7], 0, 0, 20⟩).audio_frames ++ [[7]] ≠ [] ∧
    stepFrame 15 initState ⟨[7], 0, 0, 20⟩ =
      (initState, some ((triggerStep initState ⟨[7], 0, 0, 20⟩).audio_frames ++ [[7]])) :=
  flush_emits_nonempty 15 initState ⟨[7], 0, 0, 20⟩ 0 (by decide) (by decide) (by decide)

/-- C1: one trigger match while idle, preceded by no-match frames, opens
a window; once the elapsed time first reaches the recording duration the
single emitted buffer is exactly the triggering frame followed by every
later frame up to and including the closing one, in arrival order, with
nothing dropped or duplicated, and the machine is back in the initial
idle state. -/
theorem single_trigger_window (dur : Int) (pre mid : List FrameInput)
    (trig last : FrameInput)
    (hpre : ∀ i ∈ pre, i.keywordIndex ≠ 0)
    (htrig : trig.keywordIndex = 0)
    (htlt : trig.tCheck - trig.tTrigger < dur)
    (_hmidk : ∀ i ∈ mid, i.keywordIndex ≠ 0)
    (hmid : ∀ i ∈ mid, i.tCheck - trig.tTrigger < dur)
    (hlast : dur ≤ last.tCheck - trig.tTrigger) :
    runLoop dur initState (pre ++ trig :: (mid ++ [last])) =
      (initState, [trig.pcm :: (mid.map FrameInput.pcm ++ [last.pcm])]) := by
  rw [runLoop_append, run_idle_skip dur initState pre rfl hpre]
  simp only [runLoop, step_trigger_start dur initState trig rfl htrig htlt]
  rw [run_recording_window dur trig.tTrigger mid last _ rfl rfl hmid hlast]
  simp

theorem single_trigger_window_witness :
    runLoop 2 initState
      [⟨[1], -1, 0, 0⟩, ⟨[2], 0, 10, 10⟩, ⟨[3], -1, 0, 11⟩, ⟨[4], -1, 0, 12⟩] =
      (initState, [[[2], [3], [4]]]) :=
  single_trigger_window 2 [⟨[1], -1, 0, 0⟩] [⟨[3], -1, 0, 11⟩]
    ⟨[2], 0, 10, 10⟩ ⟨[4], -1, 0, 12⟩
    (by decide) (by decide) (by decide) (by decide) (by decide) (by decide)

/-! ## Claims about persistence, delivery and retention -/

/-- C7: when the artifact path is unreadable, `send_audio_email` returns
the attachment-failure outcome and no network connection is attempted:
the attachment check (lines 47-59) short-circuits before the SMTP
connection, authentication or transmission (lines 61-67), whatever the
relay would have answered. -/
theorem unreadable_attachment_no_network (fs : Storage) (path : String)
    (connectOk authOk sendOk : Bool) (h : fsLookup fs path = none) :
    send_audio_email fs path connectOk authOk sendOk =
      (DeliveryOutcome.AttachmentFailure, false) := by
  simp [send_audio_email, h]

theorem unreadable_attachment_no_network_witness :
    send_audio_email [] "missing.wav" true true true =
      (DeliveryOutcome.AttachmentFailure, false) :=
  unreadable_attachment_no_network [] "missing.wav" true true true rfl

/-- C5: for a completed session whose artifact write succeeded, a
successful delivery is followed by deletion of the artifact (its path no
longer resolves on storage), while any failure outcome leaves storage
exactly as the write left it, the artifact still present with its
written contents. -/
theorem retention_by_outcome (fs : Storage) (frames : List (List Int))
    (path : String) (o : DeliveryOutcome) (hne : frames ≠ []) :
    (o = DeliveryOutcome.Success →
      fsLookup (flushSession fs frames path true o).1 path = none) ∧
    (o ≠ DeliveryOutcome.Success →
      (flushSession fs frames path true o).1 = fsWrite fs path (encodeFrames frames) ∧
      fsLookup (flushSession fs frames path true o).1 path = some (encodeFrames frames)) := by
  constructor
  · intro hS
    subst hS
    simp [flushSession, hne, emailSent, fsLookup_fsErase]
  · intro hNS
    have hb : emailSent o = false := by
      cases o <;> simp_all [emailSent]
    simp [flushSession, hne, hb, fsLookup_fsWrite_self]

theorem retention_by_outcome_witness :
    fsLookup (flushSession [] [[1]] "a.wav" true DeliveryOutcome.Success).1 "a.wav" = none ∧
    fsLookup (flushSession [] [[1]] "a.wav" true DeliveryOutcome.AuthFailure).1 "a.wav" =
      some (encodeFrames [[1]]) :=
  ⟨(retention_by_outcome [] [[1]] "a.wav" DeliveryOutcome.Success (by decide)).1 rfl,
    ((retention_by_outcome [] [[1]] "a.wav" DeliveryOutcome.AuthFailure (by decide)).2
      (by decide)).2⟩

/-- C6: per-session failures are contained in the session-completion
block: when the artifact write fails, the exception is caught, no
delivery attempt is made and storage is untouched; and for every
combination of write result and delivery outcome the block returns with
the frame buffer cleared, ready for the next trigger (the block is a
total function — no failure escapes to end the loop). -/
theorem session_failure_contained (fs : Storage) (frames : List (List Int))
    (path : String) (o : DeliveryOutcome) (hne : frames ≠ []) :
    (flushSession fs frames path false o).2.1 = none ∧
    (flushSession fs frames path false o).1 = fs ∧
    ∀ writeOk o2, (flushSession fs frames path writeOk o2).2.2 = [] := by
  refine ⟨?_, ?_, ?_⟩
  · simp [flushSession, hne]
  · simp [flushSession, hne]
  · intro writeOk o2
    cases writeOk <;> simp [flushSession, hne]

theorem session_failure_contained_witness :
    (flushSession [("keep.wav", [0])] [[1]] "a.wav" false DeliveryOutcome.Success).2.1 = none ∧
    (flushSession [("keep.wav", [0])] [[1]] "a.wav" false DeliveryOutcome.Success).1 =
      [("keep.wav", [0])] ∧
    ∀ writeOk o2,
      (flushSession [("keep.wav", [0])] [[1]] "a.wav" writeOk o2).2.2 = [] :=
  session_failure_contained [("keep.wav", [0])] [[1]] "a.wav" DeliveryOutcome.Success
    (by decide)

/-! ## Claim C8: artifact creation

The claim says every artifact write creates exactly one new file and
never overwrites, for every sequence of session completion times.  The
source derives the file name from a second-granularity timestamp (lines
137-138) and opens it with `'wb'` (line 142), which truncates an
existing file: two sessions completing within the same second collide
and the second write replaces the first artifact.  The claim therefore
holds only when the completion times yield fresh names. -/

/-- C8 (counterexample): two sessions completing in the same second
derive the same artifact name; the second write creates no new file and
overwrites the first artifact's contents. -/
theorem artifact_write_collision :
    (fsWrite (fsWrite [] (wavFilename 5) [1]) (wavFilename 5) [2]).length =
      (fsWrite [] (wavFilename 5) [1]).length ∧
    fsLookup (fsWrite [] (wavFilename 5) [1]) (wavFilename 5) = some [1] ∧
    fsLookup (fsWrite (fsWrite [] (wavFilename 5) [1]) (wavFilename 5) [2])
      (wavFilename 5) = some [2] := by
  decide

/-- C8 (amended): an artifact write whose timestamp-derived name is not
already present on storage creates exactly one new file — the artifact,
holding the written bytes — and leaves every other file unchanged. -/
theorem artifact_write_fresh (fs : Storage) (t : Nat) (d : List Nat)
    (h : fsLookup fs (wavFilename t) = none) :
    (fsWrite fs (wavFilename t) d).length = fs.length + 1 ∧
    fsLookup (fsWrite fs (wavFilename t) d) (wavFilename t) = some d ∧
    ∀ q, q ≠ wavFilename t →
      fsLookup (fsWrite fs (wavFilename t) d) q = fsLookup fs q :=
  ⟨fsWrite_length_of_fresh fs (wavFilename t) d h,
    fsLookup_fsWrite_self fs (wavFilename t) d,
    fun q hq => fsLookup_fsWrite_other fs (wavFilename t) q d hq⟩

theorem artifact_write_fresh_witness :
    (fsWrite [] (wavFilename 7) [9]).length = ([] : Storage).length + 1 ∧
    fsLookup (fsWrite [] (wavFilename 7) [9]) (wavFilename 7) = some [9] ∧
    ∀ q, q ≠ wavFilename 7 →
      fsLookup (fsWrite [] (wavFilename 7) [9]) q = fsLookup [] q :=
  artifact_write_fresh [] 7 [9] rfl

/-- C9: for a non-empty frame sequence of in-range 16-bit samples, the
written artifact declares 1 channel, 2-byte (16-bit) samples and the
session sample rate, and decoding its data bytes yields exactly the
original samples in order. -/
theorem wav_round_trip (rate : Nat) (frames : List (List Int))
    (_hne : frames ≠ [])
    (hrange : ∀ f ∈ frames, ∀ s ∈ f, -32768 ≤ s ∧ s < 32768) :
    (writeWav rate frames).nchannels = 1 ∧
    (writeWav rate frames).sampwidth = 2 ∧
    (writeWav rate frames).framerate = rate ∧
    decodeSamples (writeWav rate frames).data = frames.flatten :=
  ⟨rfl, rfl, rfl, decode_encodeFrames frames hrange⟩

theorem wav_round_trip_witness :
    (writeWav 16000 [[1, -1], [32767, -32768]]).nchannels = 1 ∧
    (writeWav 16000 [[1, -1], [32767, -32768]]).sampwidth = 2 ∧
    (writeWav 16000 [[1, -1], [32767, -32768]]).framerate = 16000 ∧
    decodeSamples (writeWav 16000 [[1, -1], [32767, -32768]]).data =
      [1, -1, 32767, -32768] :=
  wav_round_trip 16000 [[1, -1], [32767, -32768]] (by decide) (by decide)

end Listen
